import Mathlib

/-
Verification development for the koishi NATS plugin.

The embedding below follows the two core source files of the repository:

* `schema-to-nats-connection.ts` (draft with path-or-inline TLS slots):
  `schemaToConnectionOptions` turns the plugin `Config` into the transport's
  `ConnectionOptions`, constructing one authenticator per `AuthSpec` entry and
  resolving the TLS material from files or inline strings.
* `service.ts` (latest draft, which re-raises connect failures):
  `NatsService.start` / `NatsService.stop` and the status-reconciliation loop
  `handleStatusUpdates`.

Asynchronous file reads are modelled by an explicit file-system argument,
logging by returning the list of emitted log entries, and the transport's
behaviour (`connect` outcome, status events, closed signal) by explicit
inputs.  JavaScript truthiness of optional string/boolean fields is modelled
explicitly (`undefined` and the empty string are falsy).
-/

deriving instance DecidableEq for Except

namespace NatsPlugin

/-- A file system: maps a path to the file's text content, or `none` when the
read fails (missing file, permission error).  File contents are modelled as
UTF-8 text; a raw-byte read returns the UTF-8 encoding of that text. -/
def FS : Type := String → Option String

/-- UTF-8 encoding of one character (the standard 1-4 byte encoding produced
by `TextEncoder`). -/
def utf8Bytes (c : Char) : List Nat :=
  let n := c.toNat
  if n < 128 then [n]
  else if n < 2048 then [192 + n / 64, 128 + n % 64]
  else if n < 65536 then [224 + n / 4096, 128 + n / 64 % 64, 128 + n % 64]
  else [240 + n / 262144, 128 + n / 4096 % 64, 128 + n / 64 % 64, 128 + n % 64]

/-- Model of `new TextEncoder().encode(s)`: the UTF-8 bytes of `s`. -/
def textEncode (s : String) : List Nat :=
  (s.data.map utf8Bytes).flatten

/-- Model of `readFile(path, 'utf8')` from `fs/promises`: resolves with the
file's text, or rejects when the read fails. -/
def readFileText (fs : FS) (p : String) : Except String String :=
  match fs p with
  | some c => Except.ok c
  | none => Except.error ("ENOENT: no such file or directory, open " ++ p)

/-- Model of `readFile(path)` from `fs/promises`: resolves with the file's raw
bytes, or rejects when the read fails. -/
def readFileBytes (fs : FS) (p : String) : Except String (List Nat) :=
  match fs p with
  | some c => Except.ok (textEncode c)
  | none => Except.error ("ENOENT: no such file or directory, open " ++ p)

/-- JavaScript truthiness of an optional string field: `undefined` and the
empty string are both falsy. -/
def strTruthy : Option String → Bool
  | some s => !(s == "")
  | none => false

/-- JavaScript truthiness of an optional boolean field. -/
def boolTruthy : Option Bool → Bool
  | some b => b
  | none => false

/-- JavaScript `a || b` on two optional strings. -/
def jsOr (a b : Option String) : Option String :=
  if strTruthy a then a else b

/-- The `authType` tag of one authenticator entry of the plugin `Config`. -/
inductive AuthType where
  | Token
  | UserPass
  | NKey
  | creds_file
  deriving DecidableEq

/-- One entry of `Config.authenticator` (all data fields optional in the
TypeScript interface). -/
structure AuthSpec where
  authType : AuthType
  auth_token : Option String := none
  user : Option String := none
  pass : Option String := none
  nkey_seed : Option String := none
  creds_file : Option String := none
  deriving DecidableEq

/-- Opaque authenticators, tagged by the transport constructor that built them
(`tokenAuthenticator`, `usernamePasswordAuthenticator`, `nkeyAuthenticator`,
`credsAuthenticator`) together with the arguments they captured. -/
inductive Authenticator where
  | token (tok : Option String)
  | userPass (user pass : Option String)
  | nkey (seed : List Nat)
  | creds (content : List Nat)
  deriving DecidableEq

/-- The `Config.tlsConfig` record (all fields optional strings/bool in the
TypeScript interface). -/
structure TlsSpec where
  handshakeFirst : Option Bool := none
  certFile : Option String := none
  cert : Option String := none
  caFile : Option String := none
  ca : Option String := none
  keyFile : Option String := none
  key : Option String := none
  deriving DecidableEq

/-- The plugin `Config` interface from `service.ts`. -/
structure Config where
  servers : List String
  noRandomize : Option Bool := none
  reconnect : Option Bool := none
  maxReconnectAttempts : Option Int := none
  authenticator : Option (List AuthSpec) := none
  tlsEnabled : Option Bool := none
  tlsConfig : Option TlsSpec := none
  name : Option String := none
  noAsyncTraces : Option Bool := none
  debug : Option Bool := none
  deriving DecidableEq

/-- The transport's `TlsOptions` as populated by `schemaToConnectionOptions`. -/
structure TlsOptions where
  handshakeFirst : Option Bool := none
  cert : Option String := none
  key : Option String := none
  ca : Option String := none
  deriving DecidableEq

/-- The transport's `ConnectionOptions` as populated by
`schemaToConnectionOptions`. -/
structure ConnectionOptions where
  servers : List String
  noRandomize : Option Bool := none
  reconnect : Option Bool := none
  maxReconnectAttempts : Option Int := none
  name : Option String := none
  noAsyncTraces : Option Bool := none
  debug : Option Bool := none
  authenticator : Option (List Authenticator) := none
  tls : Option TlsOptions := none
  deriving DecidableEq

/-- One arm of the `switch (auth.authType)` in `schemaToConnectionOptions`:
`Token` and `UserPass` capture the (possibly `undefined`) fields directly,
`NKey` UTF-8 encodes the seed (`TextEncoder.encode` treats an `undefined`
argument as the empty string), and `creds_file` reads the file's raw bytes
(`readFile(undefined)` rejects with a `TypeError`). -/
def resolveAuthSpec (fs : FS) (auth : AuthSpec) : Except String Authenticator :=
  match auth.authType with
  | AuthType.Token => Except.ok (Authenticator.token auth.auth_token)
  | AuthType.UserPass => Except.ok (Authenticator.userPass auth.user auth.pass)
  | AuthType.NKey =>
      Except.ok (Authenticator.nkey (textEncode (auth.nkey_seed.getD "")))
  | AuthType.creds_file =>
      match auth.creds_file with
      | some p =>
          match readFileBytes fs p with
          | Except.ok bs => Except.ok (Authenticator.creds bs)
          | Except.error e => Except.error e
      | none => Except.error "TypeError: path must be a string"

/-- Model of `Promise.all(config.authenticator.map(...))`: every entry is
resolved, the whole list fails as soon as any entry fails (no partial list is
ever produced), and the result order matches the input order. -/
def resolveAllAuth (fs : FS) : List AuthSpec → Except String (List Authenticator)
  | [] => Except.ok []
  | a :: rest =>
      match resolveAuthSpec fs a, resolveAllAuth fs rest with
      | Except.ok x, Except.ok xs => Except.ok (x :: xs)
      | Except.error e, _ => Except.error e
      | Except.ok _, Except.error e => Except.error e

/-- One TLS slot of `schemaToConnectionOptions`:
`if (pathField) slot = await readFile(pathField, 'utf8');
else if (inlineField) slot = inlineField;` — otherwise the slot is left
absent.  The conditions use JavaScript truthiness. -/
def tlsSlot (fs : FS) (pathField inlineField : Option String) :
    Except String (Option String) :=
  if strTruthy pathField then
    match pathField with
    | some p =>
        match readFileText fs p with
        | Except.ok c => Except.ok (some c)
        | Except.error e => Except.error e
    | none => Except.error "unreachable"
  else if strTruthy inlineField then
    Except.ok inlineField
  else
    Except.ok none

/-- The identity fields copied verbatim at the top of
`schemaToConnectionOptions`. -/
def baseOptions (config : Config) : ConnectionOptions :=
  { servers := config.servers
    noRandomize := config.noRandomize
    reconnect := config.reconnect
    maxReconnectAttempts := config.maxReconnectAttempts
    name := config.name
    noAsyncTraces := config.noAsyncTraces
    debug := config.debug }

/-- The authenticator section of `schemaToConnectionOptions`:
`if (config.authenticator && config.authenticator.length > 0)` build the
authenticator array (a present empty array is truthy in JavaScript, so only
the length test matters there). -/
def applyAuth (fs : FS) (config : Config) (options : ConnectionOptions) :
    Except String ConnectionOptions :=
  match config.authenticator with
  | some auths =>
      if 0 < auths.length then
        match resolveAllAuth fs auths with
        | Except.ok as => Except.ok { options with authenticator := some as }
        | Except.error e => Except.error e
      else Except.ok options
  | none => Except.ok options

/-- The body of the TLS section for a present `tlsConfig`: start from an
empty `TlsOptions`, copy `handshakeFirst` when it is not `undefined`, then
resolve the three path-or-inline slots in source order (cert, key, ca),
aborting on the first failed read. -/
def buildTlsOptions (fs : FS) (tc : TlsSpec) : Except String TlsOptions :=
  let t0 : TlsOptions := {}
  let t1 : TlsOptions :=
    match tc.handshakeFirst with
    | some b => { t0 with handshakeFirst := some b }
    | none => t0
  match tlsSlot fs tc.certFile tc.cert with
  | Except.error e => Except.error e
  | Except.ok certV =>
      match tlsSlot fs tc.keyFile tc.key with
      | Except.error e => Except.error e
      | Except.ok keyV =>
          match tlsSlot fs tc.caFile tc.ca with
          | Except.error e => Except.error e
          | Except.ok caV =>
              Except.ok { t1 with cert := certV, key := keyV, ca := caV }

/-- The TLS section of `schemaToConnectionOptions`: runs when
`config.tlsEnabled && config.tlsConfig` is truthy, and stores the built
`TlsOptions` on the options object. -/
def applyTls (fs : FS) (config : Config) (opts1 : ConnectionOptions) :
    Except String ConnectionOptions :=
  if boolTruthy config.tlsEnabled && config.tlsConfig.isSome then
    match config.tlsConfig with
    | some tc =>
        match buildTlsOptions fs tc with
        | Except.error e => Except.error e
        | Except.ok t => Except.ok { opts1 with tls := some t }
    | none => Except.ok opts1
  else Except.ok opts1

/-- Model of `schemaToConnectionOptions` from `schema-to-nats-connection.ts`:
copies the identity fields, builds the authenticator array when the
`authenticator` list is present and non-empty, and builds `TlsOptions` when
`config.tlsEnabled && config.tlsConfig` is truthy (per-slot: path wins, else
inline, else absent). -/
def schemaToConnectionOptions (fs : FS) (config : Config) :
    Except String ConnectionOptions :=
  match applyAuth fs config (baseOptions config) with
  | Except.error e => Except.error e
  | Except.ok opts1 => applyTls fs config opts1

/-- Call-site view of `schemaToConnectionOptions`: pairs the result with the
state of the caller's `config` object at the moment the function returns.
The source contains no assignment to any field of `config` (it only reads
them), so the post-call object is the argument unchanged. -/
def schemaToConnectionOptionsCall (fs : FS) (config : Config) :
    Except String (ConnectionOptions × Config) :=
  (schemaToConnectionOptions fs config).map (fun o => (o, config))

/-- An opaque live transport connection (`NatsConnection`). -/
structure NatsConnection where
  id : Nat
  deriving DecidableEq

/-- Log severities of the koishi `Logger` methods used by the service. -/
inductive Severity where
  | error
  | warn
  | success
  | info
  | debug
  deriving DecidableEq

/-- One logger invocation: severity, message, optional structured payload. -/
structure LogEntry where
  severity : Severity
  message : String
  payload : Option String := none
  deriving DecidableEq

/-- Everything observable about one `NatsService.start` invocation: the stored
client reference when `start` returns, the log entries it emitted, how many
times it called the transport's `connect`, whether it returned normally or
re-raised an error, and whether it launched the status-reconciliation task. -/
structure StartOutcome where
  state : Option NatsConnection
  logs : List LogEntry
  connectAttempts : Nat
  result : Except String Unit
  loopSpawned : Bool
  deriving DecidableEq

/-- Model of `NatsService.start` (latest `service.ts` draft, the one that
re-throws).  `connectResult` is the transport's response to the (at most one)
`connect` call; `st` is `this.client` on entry.  The `await
schemaToConnectionOptions(this.config)` sits outside the `try` block, so a
resolution failure propagates without being logged by `start`. -/
def start (fs : FS) (config : Config)
    (connectResult : Except String NatsConnection)
    (st : Option NatsConnection) : StartOutcome :=
  match st with
  | some c =>
      { state := some c
        logs := [{ severity := Severity.warn
                   message := "NATS client is already connected, no need to start again." }]
        connectAttempts := 0
        result := Except.ok ()
        loopSpawned := false }
  | none =>
      match schemaToConnectionOptions fs config with
      | Except.error e =>
          { state := none
            logs := []
            connectAttempts := 0
            result := Except.error e
            loopSpawned := false }
      | Except.ok _opts =>
          match connectResult with
          | Except.ok c =>
              { state := some c
                logs := [{ severity := Severity.info
                           message := "Connecting to NATS server..." },
                         { severity := Severity.success
                           message := "Successfully connected to NATS server." }]
                connectAttempts := 1
                result := Except.ok ()
                loopSpawned := true }
          | Except.error e =>
              { state := none
                logs := [{ severity := Severity.info
                           message := "Connecting to NATS server..." },
                         { severity := Severity.error
                           message := "connect to NATS server Failed:"
                           payload := some e }]
                connectAttempts := 1
                result := Except.error e
                loopSpawned := false }

/-- Everything observable about one `NatsService.stop` invocation. -/
structure StopOutcome where
  state : Option NatsConnection
  logs : List LogEntry
  drainCalls : Nat
  deriving DecidableEq

/-- Model of `NatsService.stop`: with no client it returns at once with no
side effects; with a client it logs, awaits `drain()`, and returns.  The
source contains no assignment to `this.client` in `stop`. -/
def stop (st : Option NatsConnection) : StopOutcome :=
  match st with
  | none => { state := none, logs := [], drainCalls := 0 }
  | some c =>
      { state := some c
        logs := [{ severity := Severity.info
                   message := "Closing NATS connection..." }]
        drainCalls := 1 }

/-- One event of the transport's status stream: a string tag plus optional
`data` / `error` payloads. -/
structure StatusEvent where
  type : String
  data : Option String := none
  error : Option String := none
  deriving DecidableEq

/-- The log entry emitted for one non-terminal status event, per the
`switch (status.type)` in `handleStatusUpdates`. -/
def statusLogEntry (status : StatusEvent) : LogEntry :=
  match status.type with
  | "error" =>
      { severity := Severity.error, message := "NATS error:"
        payload := jsOr status.error status.data }
  | "disconnect" =>
      { severity := Severity.warn, message := "Disconnected from NATS server" }
  | "reconnect" =>
      { severity := Severity.success, message := "Reconnected successfully!" }
  | "reconnecting" =>
      { severity := Severity.info, message := "Reconnecting..." }
  | "staleConnection" =>
      { severity := Severity.debug, message := "NATS connection stale" }
  | "ldm" =>
      { severity := Severity.warn
        message := "Current NATS server entered lame duck mode" }
  | "update" =>
      { severity := Severity.debug
        message := "NATS cluster configuration updated:"
        payload := status.data }
  | other =>
      { severity := Severity.debug, message := "NATS status update: " ++ other }

/-- The log entry emitted when the closed signal resolves (the `result.done`
branch of `handleStatusUpdates`). -/
def closedLogEntry : Option String → LogEntry
  | some e =>
      { severity := Severity.error
        message := "NATS connection closed due to error:"
        payload := some e }
  | none =>
      { severity := Severity.info, message := "NATS connection closed normally" }

/-- What ends the status stream after the finitely many delivered events:
either the closed signal resolves (optionally with an error), or the next
read from the status source throws. -/
inductive LoopEnd where
  | closed (err : Option String)
  | raise (e : String)
  deriving DecidableEq

/-- Result of the `while (true)` race loop inside `handleStatusUpdates`:
the log entries it emitted, an exception escaping the loop (if any), and
whether the loop's closed branch executed `this.client = null`. -/
structure LoopResult where
  logs : List LogEntry
  uncaught : Option String
  cleared : Bool
  deriving DecidableEq

/-- The `while (true)` loop of `handleStatusUpdates`, driven by the finite
list of status events delivered before the stream ends.  Each status event
yields one log entry; the closed signal yields the terminal entry, clears the
client reference and breaks; a throw escapes the loop uncaught. -/
def runStatusLoop : List StatusEvent → LoopEnd → LoopResult
  | [], LoopEnd.closed err => { logs := [closedLogEntry err], uncaught := none, cleared := true }
  | [], LoopEnd.raise e => { logs := [], uncaught := some e, cleared := false }
  | s :: rest, ending =>
      let r := runStatusLoop rest ending
      { logs := statusLogEntry s :: r.logs, uncaught := r.uncaught, cleared := r.cleared }

/-- Model of `handleStatusUpdates`: the whole loop body runs inside a
`try`/`catch` whose handler logs the exception and returns; the function
therefore always returns normally.  The returned pair is (all log entries
emitted, the stored client reference after the task ends). -/
def handleStatusUpdates (events : List StatusEvent) (ending : LoopEnd)
    (st : Option NatsConnection) : List LogEntry × Option NatsConnection :=
  let r := runStatusLoop events ending
  let st1 := if r.cleared then none else st
  match r.uncaught with
  | none => (r.logs, st1)
  | some e =>
      (r.logs ++ [{ severity := Severity.error
                    message := "NATS status listener exited abnormally:"
                    payload := some e }], st1)

/-- A `start` invocation followed (strictly afterwards) by the background
status-reconciliation task it may have spawned.  The source calls
`this.handleStatusUpdates(this.client)` without `await`, so `start` returns
before the loop runs; the first component is exactly what `start`'s caller
observes, the rest is what the background task later produces. -/
def startThenLoop (fs : FS) (config : Config)
    (connectResult : Except String NatsConnection)
    (events : List StatusEvent) (ending : LoopEnd)
    (st : Option NatsConnection) :
    StartOutcome × List LogEntry × Option NatsConnection :=
  let o := start fs config connectResult st
  if o.loopSpawned then
    let r := handleStatusUpdates events ending o.state
    (o, r.1, r.2)
  else
    (o, [], o.state)

/-- Spec-side description (section 4.3 table of the specification) of the
severity a status tag must be logged at: error, disconnect, reconnect,
reconnecting, staleConnection, ldm, update, and a catch-all. -/
def tagSeverity : String → Severity
  | "error" => Severity.error
  | "disconnect" => Severity.warn
  | "reconnect" => Severity.success
  | "reconnecting" => Severity.info
  | "staleConnection" => Severity.debug
  | "ldm" => Severity.warn
  | "update" => Severity.debug
  | _ => Severity.debug

/-- Spec-side description of one resolved TLS slot, with "set" read as
JavaScript truthiness (present and non-empty): a set path field wins and the
slot carries the file's UTF-8 text; otherwise a set inline field is used
verbatim; otherwise the slot is absent. -/
def slotSpecHolds (fs : FS) (pathF inlineF resolved : Option String) : Prop :=
  if strTruthy pathF then
    ∃ p c, pathF = some p ∧ readFileText fs p = Except.ok c ∧ resolved = some c
  else if strTruthy inlineF then resolved = inlineF
  else resolved = none

/-- Spec-side description (claim C4) of the authenticator constructed for one
AuthSpec: Token builds a token authenticator over `auth_token`, UserPass a
username/password authenticator, NKey an NKey authenticator over the UTF-8
byte encoding of the seed, and a creds file a credentials authenticator over
the file's raw bytes. -/
def claimAuthenticator (fs : FS) (a : AuthSpec) (au : Authenticator) : Prop :=
  (a.authType = AuthType.Token → au = Authenticator.token a.auth_token) ∧
  (a.authType = AuthType.UserPass →
    au = Authenticator.userPass a.user a.pass) ∧
  (a.authType = AuthType.NKey →
    au = Authenticator.nkey (textEncode (a.nkey_seed.getD ""))) ∧
  (a.authType = AuthType.creds_file →
    ∃ p bs, a.creds_file = some p ∧ readFileBytes fs p = Except.ok bs ∧
      au = Authenticator.creds bs)

/-- Recognizes the two terminal log entries (the ones emitted by the closed
branch of the reconciliation loop) by their messages. -/
def isClosedEntry (l : LogEntry) : Bool :=
  l.message == "NATS connection closed due to error:" ||
  l.message == "NATS connection closed normally"

/-- The configuration contains a creds-file AuthSpec whose file read fails. -/
def credsReadFails (fs : FS) (config : Config) : Prop :=
  ∃ l a p, config.authenticator = some l ∧ a ∈ l ∧
    a.authType = AuthType.creds_file ∧ a.creds_file = some p ∧ fs p = none

/-- TLS is enabled and some TLS slot has a (truthy) path field whose file
read fails. -/
def tlsPathReadFails (fs : FS) (config : Config) : Prop :=
  boolTruthy config.tlsEnabled = true ∧
  ∃ tc, config.tlsConfig = some tc ∧
    ((∃ p, tc.certFile = some p ∧ p ≠ "" ∧ fs p = none) ∨
     (∃ p, tc.keyFile = some p ∧ p ≠ "" ∧ fs p = none) ∨
     (∃ p, tc.caFile = some p ∧ p ≠ "" ∧ fs p = none))

/-- A file system on which every read fails. -/
def fsEmpty : FS := fun _ => none

/-- TLS spec whose cert slot has no path and an empty inline string. -/
def tcC1 : TlsSpec := { cert := some "" }

/-- Config enabling TLS with `tcC1`. -/
def cfgC1 : Config :=
  { servers := ["127.0.0.1:4222"], tlsEnabled := some true, tlsConfig := some tcC1 }

/-- The options `schemaToConnectionOptions` resolves `cfgC1` to. -/
def optsC1 : ConnectionOptions :=
  { servers := ["127.0.0.1:4222"], tls := some {} }

/-- File system holding the client certificate used by the C1 witness. -/
def fsW1 : FS :=
  fun p => if p = "/certs/client.pem" then some "FILECERT" else none

/-- TLS spec with a cert path and inline cert both set, an inline key only,
and no CA material. -/
def tcW1 : TlsSpec :=
  { handshakeFirst := some true
    certFile := some "/certs/client.pem"
    cert := some "INLINECERT"
    key := some "INLINEKEY" }

/-- Config enabling TLS with `tcW1`. -/
def cfgW1 : Config :=
  { servers := ["127.0.0.1:4222"], tlsEnabled := some true, tlsConfig := some tcW1 }

/-- The options `schemaToConnectionOptions` resolves `cfgW1` to: the cert
path wins over the inline cert, the inline key is used, the CA slot is
absent. -/
def optsW1 : ConnectionOptions :=
  { servers := ["127.0.0.1:4222"]
    tls := some { handshakeFirst := some true
                  cert := some "FILECERT"
                  key := some "INLINEKEY" } }

/-- Minimal config: servers only. -/
def cfgW2 : Config := { servers := ["127.0.0.1:4222"] }

/-- The options `cfgW2` resolves to (no authenticator field, no TLS). -/
def optsW2 : ConnectionOptions := { servers := ["127.0.0.1:4222"] }

/-- File system holding the credentials file used by the C4 witness. -/
def fsW4 : FS := fun p => if p = "/my.creds" then some "MYCREDS" else none

/-- A token AuthSpec. -/
def aW4T : AuthSpec := { authType := AuthType.Token, auth_token := some "tok" }

/-- A username/password AuthSpec. -/
def aW4U : AuthSpec :=
  { authType := AuthType.UserPass, user := some "u", pass := some "p" }

/-- An NKey AuthSpec. -/
def aW4N : AuthSpec := { authType := AuthType.NKey, nkey_seed := some "SEED" }

/-- A creds-file AuthSpec pointing at `/my.creds`. -/
def aW4C : AuthSpec :=
  { authType := AuthType.creds_file, creds_file := some "/my.creds" }

/-- All four AuthSpec variants, in order. -/
def lW4 : List AuthSpec := [aW4T, aW4U, aW4N, aW4C]

/-- Config carrying the four AuthSpecs. -/
def cfgW4 : Config := { servers := ["127.0.0.1:4222"], authenticator := some lW4 }

/-- The authenticators `lW4` resolves to, in input order. -/
def authsW4 : List Authenticator :=
  [Authenticator.token (some "tok")
   , Authenticator.userPass (some "u") (some "p")
   , Authenticator.nkey (textEncode "SEED")
   , Authenticator.creds (textEncode "MYCREDS")]

/-- The options `cfgW4` resolves to. -/
def optsW4 : ConnectionOptions :=
  { servers := ["127.0.0.1:4222"], authenticator := some authsW4 }

/-- A creds-file AuthSpec pointing at a missing file. -/
def aW5 : AuthSpec :=
  { authType := AuthType.creds_file, creds_file := some "/nonexistent/creds" }

/-- Config whose only AuthSpec reads a missing credentials file. -/
def cfgW5 : Config := { servers := ["127.0.0.1:4222"], authenticator := some [aW5] }

lemma runStatusLoop_closed (evs : List StatusEvent) (err : Option String) :
    runStatusLoop evs (LoopEnd.closed err)
      = { logs := evs.map statusLogEntry ++ [closedLogEntry err]
          uncaught := none, cleared := true } := by
  induction evs with
  | nil => rfl
  | cons s rest ih => simp [runStatusLoop, ih]

lemma runStatusLoop_raise (evs : List StatusEvent) (e : String) :
    runStatusLoop evs (LoopEnd.raise e)
      = { logs := evs.map statusLogEntry, uncaught := some e, cleared := false } := by
  induction evs with
  | nil => rfl
  | cons s rest ih => simp [runStatusLoop, ih]

lemma statusMsg_ne1 (t : String) :
    ("NATS status update: " ++ t) ≠ "NATS connection closed due to error:" := by
  intro h
  have h2 : ("NATS status update: " : String).data ++ t.data
      = ("NATS connection closed due to error:" : String).data := by
    rw [← String.data_append, h]
  have e1 : ("NATS status update: " : String).data
      = 'N' :: 'A' :: 'T' :: 'S' :: ' ' :: 's' :: ("tatus update: " : String).data := rfl
  have e2 : ("NATS connection closed due to error:" : String).data
      = 'N' :: 'A' :: 'T' :: 'S' :: ' ' :: 'c'
          :: ("onnection closed due to error:" : String).data := rfl
  rw [e1, e2] at h2
  simp only [List.cons_append, List.cons.injEq] at h2
  exact absurd h2.2.2.2.2.2.1 (by decide)

lemma statusMsg_ne2 (t : String) :
    ("NATS status update: " ++ t) ≠ "NATS connection closed normally" := by
  intro h
  have h2 : ("NATS status update: " : String).data ++ t.data
      = ("NATS connection closed normally" : String).data := by
    rw [← String.data_append, h]
  have e1 : ("NATS status update: " : String).data
      = 'N' :: 'A' :: 'T' :: 'S' :: ' ' :: 's' :: ("tatus update: " : String).data := rfl
  have e2 : ("NATS connection closed normally" : String).data
      = 'N' :: 'A' :: 'T' :: 'S' :: ' ' :: 'c'
          :: ("onnection closed normally" : String).data := rfl
  rw [e1, e2] at h2
  simp only [List.cons_append, List.cons.injEq] at h2
  exact absurd h2.2.2.2.2.2.1 (by decide)

lemma statusLogEntry_not_closed (s : StatusEvent) :
    isClosedEntry (statusLogEntry s) = false := by
  unfold statusLogEntry
  split
  · rfl
  · rfl
  · rfl
  · rfl
  · rfl
  · rfl
  · rfl
  · simp only [isClosedEntry, Bool.or_eq_false_iff, beq_eq_false_iff_ne, ne_eq]
    exact ⟨statusMsg_ne1 _, statusMsg_ne2 _⟩

lemma isClosedEntry_closed (err : Option String) :
    isClosedEntry (closedLogEntry err) = true := by
  cases err <;> rfl

lemma filter_status_closed (evs : List StatusEvent) (err : Option String) :
    (evs.map statusLogEntry ++ [closedLogEntry err]).filter isClosedEntry
      = [closedLogEntry err] := by
  rw [List.filter_append]
  have h1 : (evs.map statusLogEntry).filter isClosedEntry = [] := by
    induction evs with
    | nil => rfl
    | cons s rest ih => simp [List.filter, statusLogEntry_not_closed, ih]
  rw [h1]
  simp [List.filter, isClosedEntry_closed]

lemma statusLogEntry_severity (s : StatusEvent) :
    (statusLogEntry s).severity = tagSeverity s.type := by
  unfold statusLogEntry tagSeverity
  split <;> rfl

lemma handleStatusUpdates_closed (evs : List StatusEvent) (err : Option String)
    (st : Option NatsConnection) :
    handleStatusUpdates evs (LoopEnd.closed err) st
      = (evs.map statusLogEntry ++ [closedLogEntry err], none) := by
  simp [handleStatusUpdates, runStatusLoop_closed]

/-- C6: a second `start` call with a client already stored logs one warning,
makes no connect attempt, does not spawn a second status loop, returns
normally, and leaves the single stored connection exactly as it was, so the
supervisor still holds exactly the one live connection. -/
theorem c6_idempotent_start (fs : FS) (config : Config)
    (r : Except String NatsConnection) (c : NatsConnection) :
    start fs config r (some c)
      = { state := some c
          logs := [{ severity := Severity.warn
                     message := "NATS client is already connected, no need to start again." }]
          connectAttempts := 0
          result := Except.ok ()
          loopSpawned := false } := rfl

/-- C2: when configuration resolution succeeds and the transport's `connect`
call fails, `start` logs the connect error, leaves the stored client
reference absent, and re-raises the connect failure to its caller. -/
theorem c2_connect_failure_propagates (fs : FS) (config : Config)
    (opts : ConnectionOptions) (e : String)
    (hok : schemaToConnectionOptions fs config = Except.ok opts) :
    start fs config (Except.error e) none
      = { state := none
          logs := [{ severity := Severity.info
                     message := "Connecting to NATS server..." },
                   { severity := Severity.error
                     message := "connect to NATS server Failed:"
                     payload := some e }]
          connectAttempts := 1
          result := Except.error e
          loopSpawned := false } := by
  unfold start
  rw [hok]

/-- Witness for C2 at a concrete config and a concrete connect failure. -/
theorem c2_connect_failure_propagates_witness :
    schemaToConnectionOptions fsEmpty cfgW2 = Except.ok optsW2 ∧
    start fsEmpty cfgW2 (Except.error "ECONNREFUSED") none
      = { state := none
          logs := [{ severity := Severity.info
                     message := "Connecting to NATS server..." },
                   { severity := Severity.error
                     message := "connect to NATS server Failed:"
                     payload := some "ECONNREFUSED" }]
          connectAttempts := 1
          result := Except.error "ECONNREFUSED"
          loopSpawned := false } :=
  ⟨rfl, c2_connect_failure_propagates fsEmpty cfgW2 optsW2 "ECONNREFUSED" rfl⟩

/-- C3 counterexample: at the concrete state holding client `0`, `stop`
awaits the drain (one drain call) but the stored client reference is still
present — not absent — when `stop` returns, contradicting the claim that the
client field is absent when `stop` returns. -/
theorem c3_stop_counterexample :
    (stop (some { id := 0 })).drainCalls = 1 ∧
    (stop (some { id := 0 })).state = some { id := 0 } ∧
    (stop (some { id := 0 })).state ≠ none :=
  ⟨rfl, rfl, by decide⟩

/-- C3 as amended: `stop` with no stored client completes immediately with no
side effects; `stop` with a stored client awaits the transport's drain but
does not itself clear the stored client reference — that reference is cleared
by the status-reconciliation loop when the closed signal resolves. -/
theorem c3_stop_amended (c : NatsConnection) (evs : List StatusEvent)
    (err : Option String) (st : Option NatsConnection) :
    stop none = { state := none, logs := [], drainCalls := 0 } ∧
    stop (some c)
      = { state := some c
          logs := [{ severity := Severity.info
                     message := "Closing NATS connection..." }]
          drainCalls := 1 } ∧
    (handleStatusUpdates evs (LoopEnd.closed err) st).2 = none :=
  ⟨rfl, rfl, by rw [handleStatusUpdates_closed]⟩

/-- C7: whenever the closed signal resolves, the loop logs exactly one
terminal entry — error severity carrying the error's message when the signal
carried an error, info severity otherwise — clears the stored client
reference, and the loop ends (the terminal entry is the last one). -/
theorem c7_closed_terminal_handling (evs : List StatusEvent) (err : Option String)
    (st : Option NatsConnection) :
    handleStatusUpdates evs (LoopEnd.closed err) st
      = (evs.map statusLogEntry ++ [closedLogEntry err], none) ∧
    (evs.map statusLogEntry ++ [closedLogEntry err]).filter isClosedEntry
      = [closedLogEntry err] ∧
    closedLogEntry err
      = (match err with
         | some e => { severity := Severity.error
                       message := "NATS connection closed due to error:"
                       payload := some e }
         | none => { severity := Severity.info
                     message := "NATS connection closed normally"
                     payload := none }) := by
  refine ⟨handleStatusUpdates_closed evs err st, filter_status_closed evs err, ?_⟩
  cases err <;> rfl

/-- C8: for N status events followed by a closed-signal resolution, the loop
emits exactly the N per-event entries (in order, each at the severity of the
tag-to-severity table) followed by exactly one terminal entry, and then
terminates with no further entries. -/
theorem c8_status_sequence_logging (evs : List StatusEvent) (err : Option String)
    (st : Option NatsConnection) :
    (handleStatusUpdates evs (LoopEnd.closed err) st).1
      = evs.map statusLogEntry ++ [closedLogEntry err] ∧
    (evs.map statusLogEntry).length = evs.length ∧
    (handleStatusUpdates evs (LoopEnd.closed err) st).1.map LogEntry.severity
      = evs.map (fun s => tagSeverity s.type) ++ [(closedLogEntry err).severity] ∧
    ((handleStatusUpdates evs (LoopEnd.closed err) st).1.filter isClosedEntry).length
      = 1 ∧
    (handleStatusUpdates evs (LoopEnd.closed err) st).2 = none := by
  have hmain := handleStatusUpdates_closed evs err st
  refine ⟨by rw [hmain], by simp, ?_, ?_, by rw [hmain]⟩
  · rw [hmain]
    simp only [List.map_append, List.map_map, List.map_cons, List.map_nil]
    have hfun : (LogEntry.severity ∘ statusLogEntry)
        = fun s => tagSeverity s.type := funext statusLogEntry_severity
    rw [hfun]
  · rw [hmain]
    rw [filter_status_closed]
    rfl

/-- C9: an exception thrown inside the reconciliation loop (the status source
erroring on its next read) is caught at the loop boundary: the task still
returns a value, whose log ends with exactly one error entry reporting the
exception, the loop does not restart (no entries follow it) and the stored
reference is left as it was; and the outcome `start` delivers to its caller
is by construction independent of the background loop, which `start` spawns
without awaiting, so the exception reaches neither `start` nor `stop`
callers. -/
theorem c9_loop_fault_isolated (evs : List StatusEvent) (e : String)
    (st st0 : Option NatsConnection) (fs : FS) (config : Config)
    (r : Except String NatsConnection) (ending : LoopEnd) :
    handleStatusUpdates evs (LoopEnd.raise e) st
      = (evs.map statusLogEntry
          ++ [{ severity := Severity.error
                message := "NATS status listener exited abnormally:"
                payload := some e }], st) ∧
    (startThenLoop fs config r evs ending st0).1 = start fs config r st0 := by
  constructor
  · simp [handleStatusUpdates, runStatusLoop_raise]
  · cases h : (start fs config r st0).loopSpawned <;> simp [startThenLoop, h]

lemma tlsSlot_ok_spec {fs : FS} {pf inf v : Option String}
    (h : tlsSlot fs pf inf = Except.ok v) : slotSpecHolds fs pf inf v := by
  unfold tlsSlot at h
  unfold slotSpecHolds
  by_cases hp : strTruthy pf = true
  · rw [if_pos hp] at h
    rw [if_pos hp]
    cases pf with
    | none => simp [strTruthy] at hp
    | some p =>
      have h' : (match readFileText fs p with
                 | Except.ok c => Except.ok (some c)
                 | Except.error e => Except.error e) = Except.ok v := h
      cases hr : readFileText fs p with
      | error e =>
          rw [hr] at h'
          exact Except.noConfusion (h' : Except.error e = Except.ok v)
      | ok c =>
          rw [hr] at h'
          have h2 : Except.ok (some c) = Except.ok v := h'
          injection h2 with h3
          exact ⟨p, c, rfl, hr, h3.symm⟩
  · rw [if_neg hp] at h
    rw [if_neg hp]
    by_cases hi : strTruthy inf = true
    · rw [if_pos hi] at h
      rw [if_pos hi]
      have h2 : Except.ok inf = Except.ok v := h
      injection h2 with h3
      exact h3.symm
    · rw [if_neg hi] at h
      rw [if_neg hi]
      have h2 : Except.ok (none : Option String) = Except.ok v := h
      injection h2 with h3
      exact h3.symm

lemma tlsSlot_fail {fs : FS} {pf : Option String} (inf : Option String)
    {p : String}
    (hpf : pf = some p) (hp : p ≠ "") (hr : fs p = none) :
    ∃ m, tlsSlot fs pf inf = Except.error m := by
  subst hpf
  have ht : strTruthy (some p) = true := by
    simp only [strTruthy, Bool.not_eq_true']
    exact beq_eq_false_iff_ne.mpr hp
  refine ⟨"ENOENT: no such file or directory, open " ++ p, ?_⟩
  unfold tlsSlot
  rw [if_pos ht]
  simp [readFileText, hr]

lemma buildTlsOptions_ok_spec {fs : FS} {tc : TlsSpec} {t : TlsOptions}
    (h : buildTlsOptions fs tc = Except.ok t) :
    slotSpecHolds fs tc.certFile tc.cert t.cert ∧
    slotSpecHolds fs tc.keyFile tc.key t.key ∧
    slotSpecHolds fs tc.caFile tc.ca t.ca := by
  unfold buildTlsOptions at h
  cases hc : tlsSlot fs tc.certFile tc.cert with
  | error e =>
      rw [hc] at h
      exact Except.noConfusion (h : Except.error e = Except.ok t)
  | ok cv =>
    rw [hc] at h
    cases hk : tlsSlot fs tc.keyFile tc.key with
    | error e =>
        rw [hk] at h
        exact Except.noConfusion (h : Except.error e = Except.ok t)
    | ok kv =>
      rw [hk] at h
      cases ha : tlsSlot fs tc.caFile tc.ca with
      | error e =>
          rw [ha] at h
          exact Except.noConfusion (h : Except.error e = Except.ok t)
      | ok av =>
          rw [ha] at h
          have h3 := Except.ok.inj h
          rw [← h3]
          exact ⟨tlsSlot_ok_spec hc, tlsSlot_ok_spec hk, tlsSlot_ok_spec ha⟩

lemma buildTlsOptions_fail {fs : FS} {tc : TlsSpec}
    (hfail : (∃ p, tc.certFile = some p ∧ p ≠ "" ∧ fs p = none) ∨
             (∃ p, tc.keyFile = some p ∧ p ≠ "" ∧ fs p = none) ∨
             (∃ p, tc.caFile = some p ∧ p ≠ "" ∧ fs p = none)) :
    ∃ m, buildTlsOptions fs tc = Except.error m := by
  unfold buildTlsOptions
  rcases hfail with ⟨p, hpf, hp, hr⟩ | ⟨p, hpf, hp, hr⟩ | ⟨p, hpf, hp, hr⟩
  · obtain ⟨m, hm⟩ := tlsSlot_fail tc.cert hpf hp hr
    exact ⟨m, by rw [hm]⟩
  · cases hc : tlsSlot fs tc.certFile tc.cert with
    | error e => exact ⟨e, rfl⟩
    | ok cv =>
        obtain ⟨m, hm⟩ := tlsSlot_fail tc.key hpf hp hr
        exact ⟨m, by rw [hm]⟩
  · cases hc : tlsSlot fs tc.certFile tc.cert with
    | error e => exact ⟨e, rfl⟩
    | ok cv =>
      cases hk : tlsSlot fs tc.keyFile tc.key with
      | error e => exact ⟨e, rfl⟩
      | ok kv =>
          obtain ⟨m, hm⟩ := tlsSlot_fail tc.ca hpf hp hr
          exact ⟨m, by rw [hm]⟩

lemma applyTls_eq {fs : FS} {config : Config} {tc : TlsSpec}
    (o1 : ConnectionOptions)
    (henabled : boolTruthy config.tlsEnabled = true)
    (htc : config.tlsConfig = some tc) :
    applyTls fs config o1
      = (match buildTlsOptions fs tc with
         | Except.error e => Except.error e
         | Except.ok t => Except.ok { o1 with tls := some t }) := by
  have hcond : (boolTruthy config.tlsEnabled && config.tlsConfig.isSome) = true := by
    simp [henabled, htc]
  unfold applyTls
  rw [if_pos hcond, htc]

lemma applyTls_ok_authenticator {fs : FS} {config : Config}
    {o1 o2 : ConnectionOptions} (h : applyTls fs config o1 = Except.ok o2) :
    o2.authenticator = o1.authenticator := by
  by_cases hcond : (boolTruthy config.tlsEnabled && config.tlsConfig.isSome) = true
  · have henabled : boolTruthy config.tlsEnabled = true :=
      (Bool.and_eq_true _ _).mp hcond |>.1
    have hsome : config.tlsConfig.isSome = true :=
      (Bool.and_eq_true _ _).mp hcond |>.2
    obtain ⟨tc, htc⟩ := Option.isSome_iff_exists.mp hsome
    rw [applyTls_eq o1 henabled htc] at h
    cases hb : buildTlsOptions fs tc with
    | error e =>
        rw [hb] at h
        exact Except.noConfusion (h : Except.error e = Except.ok o2)
    | ok t =>
        rw [hb] at h
        have h3 := Except.ok.inj h
        rw [← h3]
  · unfold applyTls at h
    rw [if_neg hcond] at h
    have h3 := Except.ok.inj h
    rw [← h3]

lemma applyTls_tls_spec {fs : FS} {config : Config} {tc : TlsSpec}
    {o1 o2 : ConnectionOptions}
    (henabled : boolTruthy config.tlsEnabled = true)
    (htc : config.tlsConfig = some tc)
    (h : applyTls fs config o1 = Except.ok o2) :
    ∃ t, o2.tls = some t ∧
      slotSpecHolds fs tc.certFile tc.cert t.cert ∧
      slotSpecHolds fs tc.keyFile tc.key t.key ∧
      slotSpecHolds fs tc.caFile tc.ca t.ca := by
  rw [applyTls_eq o1 henabled htc] at h
  cases hb : buildTlsOptions fs tc with
  | error e =>
      rw [hb] at h
      exact Except.noConfusion (h : Except.error e = Except.ok o2)
  | ok t =>
      rw [hb] at h
      have h3 := Except.ok.inj h
      rw [← h3]
      obtain ⟨hcert, hkey, hca⟩ := buildTlsOptions_ok_spec hb
      exact ⟨t, rfl, hcert, hkey, hca⟩

lemma applyAuth_empty {fs : FS} {config : Config} {options : ConnectionOptions}
    (h : config.authenticator = none ∨ config.authenticator = some []) :
    applyAuth fs config options = Except.ok options := by
  rcases h with h | h <;> simp [applyAuth, h]

lemma applyAuth_some {fs : FS} {config : Config} {options : ConnectionOptions}
    {l : List AuthSpec} {as : List Authenticator}
    (hl : config.authenticator = some l) (hne : l ≠ [])
    (hres : resolveAllAuth fs l = Except.ok as) :
    applyAuth fs config options
      = Except.ok { options with authenticator := some as } := by
  have hlen : 0 < l.length := List.length_pos.mpr hne
  simp [applyAuth, hl, hlen, hres]

lemma resolveAllAuth_length {fs : FS} {l : List AuthSpec}
    {as : List Authenticator} (h : resolveAllAuth fs l = Except.ok as) :
    as.length = l.length := by
  induction l generalizing as with
  | nil =>
      have h2 : (Except.ok [] : Except String (List Authenticator))
          = Except.ok as := h
      injection h2 with h3
      rw [← h3]
      rfl
  | cons a rest ih =>
    unfold resolveAllAuth at h
    cases h1 : resolveAuthSpec fs a with
    | error e =>
        rw [h1] at h
        exact Except.noConfusion (h : Except.error e = Except.ok as)
    | ok x =>
      cases h2 : resolveAllAuth fs rest with
      | error e =>
          rw [h1, h2] at h
          exact Except.noConfusion (h : Except.error e = Except.ok as)
      | ok xs =>
          rw [h1, h2] at h
          have h3 : Except.ok (x :: xs) = Except.ok as := h
          injection h3 with h4
          rw [← h4]
          simp [ih h2]

lemma resolveAllAuth_get {fs : FS} {l : List AuthSpec} {as : List Authenticator}
    (i : Nat) {a : AuthSpec} (h : resolveAllAuth fs l = Except.ok as)
    (hi : l[i]? = some a) :
    ∃ au, as[i]? = some au ∧ resolveAuthSpec fs a = Except.ok au := by
  induction l generalizing as i with
  | nil => simp at hi
  | cons b rest ih =>
    unfold resolveAllAuth at h
    cases h1 : resolveAuthSpec fs b with
    | error e =>
        rw [h1] at h
        exact Except.noConfusion (h : Except.error e = Except.ok as)
    | ok x =>
      cases h2 : resolveAllAuth fs rest with
      | error e =>
          rw [h1, h2] at h
          exact Except.noConfusion (h : Except.error e = Except.ok as)
      | ok xs =>
          rw [h1, h2] at h
          have h3 : Except.ok (x :: xs) = Except.ok as := h
          injection h3 with h4
          subst h4
          cases i with
          | zero =>
              have hba : b = a := by simpa using hi
              subst hba
              exact ⟨x, by simp, h1⟩
          | succ n =>
              have hi2 : rest[n]? = some a := by simpa using hi
              obtain ⟨au, hau, hres1⟩ := ih n h2 hi2
              exact ⟨au, by simpa using hau, hres1⟩

lemma resolveAuthSpec_claim {fs : FS} {a : AuthSpec} {au : Authenticator}
    (h : resolveAuthSpec fs a = Except.ok au) : claimAuthenticator fs a au := by
  unfold claimAuthenticator
  refine ⟨?_, ?_, ?_, ?_⟩ <;> intro ht <;> unfold resolveAuthSpec at h <;> rw [ht] at h
  · have h2 : Except.ok (Authenticator.token a.auth_token) = Except.ok au := h
    injection h2 with h3
    exact h3.symm
  · have h2 : Except.ok (Authenticator.userPass a.user a.pass) = Except.ok au := h
    injection h2 with h3
    exact h3.symm
  · have h2 : Except.ok (Authenticator.nkey (textEncode (a.nkey_seed.getD ""))) = Except.ok au := h
    injection h2 with h3
    exact h3.symm
  · cases hp : a.creds_file with
    | none =>
        rw [hp] at h
        exact Except.noConfusion
          (h : Except.error "TypeError: path must be a string" = Except.ok au)
    | some p =>
      rw [hp] at h
      have h' : (match readFileBytes fs p with
                 | Except.ok bs => Except.ok (Authenticator.creds bs)
                 | Except.error e => Except.error e) = Except.ok au := h
      cases hr : readFileBytes fs p with
      | error e =>
          rw [hr] at h'
          exact Except.noConfusion (h' : Except.error e = Except.ok au)
      | ok bs =>
          rw [hr] at h'
          have h2 : Except.ok (Authenticator.creds bs) = Except.ok au := h'
          injection h2 with h3
          exact ⟨p, bs, rfl, hr, h3.symm⟩

lemma schemaToConnectionOptions_authenticator {fs : FS} {config : Config}
    {l : List AuthSpec} {as : List Authenticator} {opts : ConnectionOptions}
    (hl : config.authenticator = some l) (hne : l ≠ [])
    (hres : resolveAllAuth fs l = Except.ok as)
    (hok : schemaToConnectionOptions fs config = Except.ok opts) :
    opts.authenticator = some as := by
  unfold schemaToConnectionOptions at hok
  rw [applyAuth_some hl hne hres] at hok
  have h2 : applyTls fs config { baseOptions config with authenticator := some as }
      = Except.ok opts := hok
  rw [applyTls_ok_authenticator h2]

lemma resolveAuthSpec_creds_fail {fs : FS} {a : AuthSpec} {p : String}
    (ht : a.authType = AuthType.creds_file) (hp : a.creds_file = some p)
    (hr : fs p = none) :
    resolveAuthSpec fs a
      = Except.error ("ENOENT: no such file or directory, open " ++ p) := by
  unfold resolveAuthSpec
  rw [ht]
  simp [hp, readFileBytes, hr]

lemma resolveAllAuth_mem_error {fs : FS} {l : List AuthSpec} {a : AuthSpec}
    {m : String} (hmem : a ∈ l) (ha : resolveAuthSpec fs a = Except.error m) :
    ∃ m2, resolveAllAuth fs l = Except.error m2 := by
  induction l with
  | nil => cases hmem
  | cons b rest ih =>
    unfold resolveAllAuth
    rcases List.mem_cons.mp hmem with h | h
    · subst h
      rw [ha]
      cases h2 : resolveAllAuth fs rest with
      | ok xs => exact ⟨m, rfl⟩
      | error e => exact ⟨m, rfl⟩
    · obtain ⟨m2, hm2⟩ := ih h
      rw [hm2]
      cases h1 : resolveAuthSpec fs b with
      | ok x => exact ⟨m2, rfl⟩
      | error e => exact ⟨e, rfl⟩

lemma schemaToConnectionOptions_creds_error {fs : FS} {config : Config}
    (hfail : credsReadFails fs config) :
    ∃ m, schemaToConnectionOptions fs config = Except.error m := by
  obtain ⟨l, a, p, hl, hmem, ht, hp, hr⟩ := hfail
  have ha := resolveAuthSpec_creds_fail ht hp hr
  obtain ⟨m2, hm2⟩ := resolveAllAuth_mem_error hmem ha
  have hne : l ≠ [] := List.ne_nil_of_mem hmem
  have hlen : 0 < l.length := List.length_pos.mpr hne
  refine ⟨m2, ?_⟩
  unfold schemaToConnectionOptions
  have happ : applyAuth fs config (baseOptions config) = Except.error m2 := by
    simp [applyAuth, hl, hlen, hm2]
  rw [happ]

lemma applyTls_path_error {fs : FS} {config : Config} {tc : TlsSpec}
    (o1 : ConnectionOptions)
    (henabled : boolTruthy config.tlsEnabled = true)
    (htc : config.tlsConfig = some tc)
    (hfail : (∃ p, tc.certFile = some p ∧ p ≠ "" ∧ fs p = none) ∨
             (∃ p, tc.keyFile = some p ∧ p ≠ "" ∧ fs p = none) ∨
             (∃ p, tc.caFile = some p ∧ p ≠ "" ∧ fs p = none)) :
    ∃ m, applyTls fs config o1 = Except.error m := by
  obtain ⟨m, hm⟩ := buildTlsOptions_fail hfail
  refine ⟨m, ?_⟩
  rw [applyTls_eq o1 henabled htc, hm]

lemma schemaToConnectionOptions_tls_error {fs : FS} {config : Config}
    (hfail : tlsPathReadFails fs config) :
    ∃ m, schemaToConnectionOptions fs config = Except.error m := by
  obtain ⟨henabled, tc, htc, hslots⟩ := hfail
  unfold schemaToConnectionOptions
  cases happ : applyAuth fs config (baseOptions config) with
  | error e => exact ⟨e, rfl⟩
  | ok o1 =>
      obtain ⟨m, hm⟩ := applyTls_path_error o1 henabled htc hslots
      exact ⟨m, hm⟩

/-- C1 counterexample: in `cfgC1` the cert slot's inline field is set (to the
empty string) and its path field is not set, yet the resolved TLS options
leave the cert slot absent instead of carrying the inline string verbatim —
the code tests JavaScript truthiness, under which an empty string behaves as
unset. -/
theorem c1_tls_slot_counterexample :
    cfgC1.tlsConfig = some tcC1 ∧ tcC1.certFile = none ∧ tcC1.cert = some "" ∧
    schemaToConnectionOptions fsEmpty cfgC1 = Except.ok optsC1 ∧
    optsC1.tls = some {} ∧ ({} : TlsOptions).cert = none ∧
    ¬∃ t, optsC1.tls = some t ∧ t.cert = some "" := by
  refine ⟨rfl, rfl, rfl, rfl, rfl, rfl, ?_⟩
  rintro ⟨t, ht, hc⟩
  have h2 : ({} : TlsOptions) = t := by
    have h3 : some ({} : TlsOptions) = some t := ht
    injection h3
  rw [← h2] at hc
  exact Option.noConfusion hc

/-- C1 as amended (with "set" meaning set to a non-empty string, i.e. truthy
in JavaScript): whenever TLS is enabled and resolution succeeds, each of the
cert/key/ca slots equals the file content read as UTF-8 text when its path
field is set (the path wins even when an inline value is also set), else the
inline string verbatim when the inline field is set, and is absent
otherwise. -/
theorem c1_tls_slot_resolution (fs : FS) (config : Config) (tc : TlsSpec)
    (opts : ConnectionOptions)
    (henabled : boolTruthy config.tlsEnabled = true)
    (htc : config.tlsConfig = some tc)
    (hok : schemaToConnectionOptions fs config = Except.ok opts) :
    ∃ t, opts.tls = some t ∧
      slotSpecHolds fs tc.certFile tc.cert t.cert ∧
      slotSpecHolds fs tc.keyFile tc.key t.key ∧
      slotSpecHolds fs tc.caFile tc.ca t.ca := by
  unfold schemaToConnectionOptions at hok
  cases happ : applyAuth fs config (baseOptions config) with
  | error e =>
      rw [happ] at hok
      exact Except.noConfusion (hok : Except.error e = Except.ok opts)
  | ok o1 =>
      rw [happ] at hok
      exact applyTls_tls_spec henabled htc hok

/-- Witness for the amended C1 at a concrete config where the cert slot has
both a path and an inline value (the path wins), the key slot has only an
inline value, and the ca slot has neither. -/
theorem c1_tls_slot_resolution_witness :
    boolTruthy cfgW1.tlsEnabled = true ∧
    cfgW1.tlsConfig = some tcW1 ∧
    schemaToConnectionOptions fsW1 cfgW1 = Except.ok optsW1 ∧
    ∃ t, optsW1.tls = some t ∧
      slotSpecHolds fsW1 tcW1.certFile tcW1.cert t.cert ∧
      slotSpecHolds fsW1 tcW1.keyFile tcW1.key t.key ∧
      slotSpecHolds fsW1 tcW1.caFile tcW1.ca t.ca :=
  ⟨rfl, rfl, rfl, c1_tls_slot_resolution fsW1 cfgW1 tcW1 optsW1 rfl rfl rfl⟩

/-- C4: for a present non-empty AuthSpec list whose resolution succeeds, the
resolved options carry exactly one authenticator per AuthSpec, in input
order (the i-th authenticator is constructed from the i-th AuthSpec per its
variant), and the input `config` object is returned unchanged by the
call. -/
theorem c4_authenticator_resolution (fs : FS) (config : Config)
    (l : List AuthSpec) (as : List Authenticator) (opts : ConnectionOptions)
    (i : Nat) (a : AuthSpec)
    (hl : config.authenticator = some l) (hne : l ≠ [])
    (hres : resolveAllAuth fs l = Except.ok as)
    (hok : schemaToConnectionOptions fs config = Except.ok opts)
    (hi : l[i]? = some a) :
    opts.authenticator = some as ∧
    as.length = l.length ∧
    (∃ au, as[i]? = some au ∧ claimAuthenticator fs a au) ∧
    schemaToConnectionOptionsCall fs config = Except.ok (opts, config) := by
  obtain ⟨au, hau, hres1⟩ := resolveAllAuth_get i hres hi
  refine ⟨schemaToConnectionOptions_authenticator hl hne hres hok,
          resolveAllAuth_length hres,
          ⟨au, hau, resolveAuthSpec_claim hres1⟩, ?_⟩
  unfold schemaToConnectionOptionsCall
  rw [hok]
  rfl

/-- Witness for C4 at a config holding all four AuthSpec variants; the index
picked is the creds-file entry. -/
theorem c4_authenticator_resolution_witness :
    cfgW4.authenticator = some lW4 ∧
    resolveAllAuth fsW4 lW4 = Except.ok authsW4 ∧
    schemaToConnectionOptions fsW4 cfgW4 = Except.ok optsW4 ∧
    (optsW4.authenticator = some authsW4 ∧
     authsW4.length = lW4.length ∧
     (∃ au, authsW4[3]? = some au ∧ claimAuthenticator fsW4 aW4C au) ∧
     schemaToConnectionOptionsCall fsW4 cfgW4 = Except.ok (optsW4, cfgW4)) :=
  ⟨rfl, rfl, rfl,
   c4_authenticator_resolution fsW4 cfgW4 lW4 authsW4 optsW4 3 aW4C rfl
     (by decide) rfl rfl rfl⟩

/-- C5: when the config contains a creds-file AuthSpec whose read fails (or
an enabled TLS slot whose path's read fails), the whole resolution fails with
an error — no partial authenticator list is returned — and `start` called in
the absent state re-raises that failure to its caller, leaves the stored
client reference absent, makes no connect attempt and logs nothing before
propagating. -/
theorem c5_read_failure_fail_fast (fs : FS) (config : Config)
    (r : Except String NatsConnection)
    (hfail : credsReadFails fs config ∨ tlsPathReadFails fs config) :
    (∃ m, schemaToConnectionOptions fs config = Except.error m) ∧
    (∃ m, start fs config r none
        = { state := none
            logs := []
            connectAttempts := 0
            result := Except.error m
            loopSpawned := false }) := by
  have herr : ∃ m, schemaToConnectionOptions fs config = Except.error m := by
    rcases hfail with h | h
    · exact schemaToConnectionOptions_creds_error h
    · exact schemaToConnectionOptions_tls_error h
  obtain ⟨m, hm⟩ := herr
  refine ⟨⟨m, hm⟩, ⟨m, ?_⟩⟩
  unfold start
  rw [hm]

/-- Witness for C5 at the config whose only AuthSpec reads the missing file
`/nonexistent/creds`. -/
theorem c5_read_failure_fail_fast_witness :
    (∃ m, schemaToConnectionOptions fsEmpty cfgW5 = Except.error m) ∧
    (∃ m, start fsEmpty cfgW5 (Except.ok { id := 7 }) none
        = { state := none
            logs := []
            connectAttempts := 0
            result := Except.error m
            loopSpawned := false }) :=
  c5_read_failure_fail_fast fsEmpty cfgW5 (Except.ok { id := 7 })
    (Or.inl ⟨[aW5], aW5, "/nonexistent/creds", rfl, by simp, rfl, rfl, rfl⟩)

/-- C10: when the config's authenticator list is absent or empty, the
resolved options carry no authenticator field at all. -/
theorem c10_authenticator_field_absent (fs : FS) (config : Config)
    (opts : ConnectionOptions)
    (h : config.authenticator = none ∨ config.authenticator = some [])
    (hok : schemaToConnectionOptions fs config = Except.ok opts) :
    opts.authenticator = none := by
  unfold schemaToConnectionOptions at hok
  rw [applyAuth_empty h] at hok
  have h2 : applyTls fs config (baseOptions config) = Except.ok opts := hok
  rw [applyTls_ok_authenticator h2]
  rfl

/-- Witness for C10 at the minimal config with no authenticator list. -/
theorem c10_authenticator_field_absent_witness :
    cfgW2.authenticator = none ∧
    schemaToConnectionOptions fsEmpty cfgW2 = Except.ok optsW2 ∧
    optsW2.authenticator = none :=
  ⟨rfl, rfl,
   c10_authenticator_field_absent fsEmpty cfgW2 optsW2 (Or.inl rfl) rfl⟩

end NatsPlugin
